import Mathlib

/-!
Verification development for the Multico PF1–PF6 generator (`src/Multi.py`).

The Python source is shallowly embedded below:
* `sanitize_numeric` embeds the `sanitize_numeric` helper (pandas series become
  `List String`, the boolean invalid mask becomes `List Bool`);
* `split_address` embeds the regex-fallback branch of `split_address`
  (the libpostal branch depends on the external `postal` package, which is not
  part of this repository; the generator below therefore uses the fallback,
  exactly as the program does when libpostal is absent);
* `build_tables` embeds `build_tables` (pandas DataFrames become a column list
  plus a list of rows; a row is a cell lookup by column name);
* `generate` embeds the `st.button("🚀 Générer")` action block: the column
  pre-check, the two sanity checks with their error reports, the write-back of
  the padded series, and the call to `build_tables`.
-/

namespace Multico

/-! ### Character classes (Python `str` / `re`, ASCII fragment)

`isPySpace` is Python's `\s` / `str.strip` whitespace, `isDigitC` is `\d`,
`isWordC` is `\w`, `isDot` is `.` (anything but a newline).  The source data is
ASCII-digit identifiers and Latin text; the embedding fixes the ASCII reading
of the classes (Python's Unicode extensions of `\d`/`\w` are not exercised by
the program's inputs of interest). -/

def isPySpace (c : Char) : Bool :=
  c == ' ' || c == '\t' || c == '\n' || c == '\r' || c == '\x0b' || c == '\x0c'

def isDigitC (c : Char) : Bool :=
  decide (48 ≤ c.toNat) && decide (c.toNat ≤ 57)

def isWordC (c : Char) : Bool :=
  isDigitC c || (decide (97 ≤ c.toNat) && decide (c.toNat ≤ 122))
    || (decide (65 ≤ c.toNat) && decide (c.toNat ≤ 90)) || c == '_'

def isDot (c : Char) : Bool :=
  !(c == '\n')

/-! ### FieldSanitizer (`sanitize_numeric`, Multi.py lines 135–140) -/

/-- Python `str.strip()` on a list of characters. -/
def pyStripL (l : List Char) : List Char :=
  ((l.dropWhile isPySpace).reverse.dropWhile isPySpace).reverse

/-- Python `str.strip()`. -/
def pyStrip (s : String) : String :=
  (pyStripL s.toList).asString

/-- Python `str.isdigit()` (ASCII): nonempty and all digits. -/
def isDigits (s : String) : Bool :=
  !s.toList.isEmpty && s.toList.all isDigitC

/-- Python `str.zfill(w)` for unsigned strings: left-pad with zeros to width
`w` (the source only calls it on all-digit strings of length `≤ w`). -/
def zfill (s : String) (w : Nat) : String :=
  (List.replicate (w - s.length) '0').asString ++ s

/-- `re.fullmatch(r"\d{w}", s)`: exactly `w` digits. -/
def isWidthDigits (w : Nat) (s : String) : Bool :=
  s.length == w && s.toList.all isDigitC

/-- The per-value body of `sanitize_numeric`:
`x.zfill(width) if x.isdigit() and len(x) <= width else x` applied to the
stripped value. -/
def sanitizeOne (w : Nat) (v : String) : String :=
  let x := pyStrip v
  if isDigits x && decide (x.length ≤ w) then zfill x w else x

/-- `sanitize_numeric(series, width)`: returns the corrected series and the
mask of invalid values (`~s_padded.str.fullmatch(r"\d{width}")`). -/
def sanitize_numeric (vals : List String) (w : Nat) : List String × List Bool :=
  let padded := vals.map (sanitizeOne w)
  (padded, padded.map (fun s => !isWidthDigits w s))

/-! ### AddressParser, regex-fallback branch (`split_address`, lines 116–124)

The fallback is the anchored pattern
`^\s*(?P<num>\d+\w?)\s+(?P<voie>.+?)\s+(?P<cp>\d{5})\s+(?P<ville>.+)$`
(with `re.I`, which is irrelevant: no letter literals occur in the pattern).
The matcher below hand-compiles that pattern, preserving Python's backtracking
order: leading `\s*` is deterministic (whitespace and digits are disjoint),
`\d+` is maximal and `\w?` prefers to consume (giving back never helps, since
the following `\s+` fails on a word character or digit either way), each `\s+`
is greedy with backtracking from its maximal run downwards, the `voie` group
is lazy (shortest first), and the final `.+$` is forced to be the maximal run
of non-newline characters (`$` accepts the end or a single trailing newline;
a shorter greedy run would leave non-newline characters unmatched). -/

/-- Length of the maximal whitespace run at the front (`\s*` / `\s+`). -/
def wsCount (cs : List Char) : Nat :=
  (cs.takeWhile isPySpace).length

/-- `$`: end of string, or just before a single trailing newline. -/
def endOk (cs : List Char) : Bool :=
  match cs with
  | [] => true
  | [c] => c == '\n'
  | _ => false

/-- `(?P<ville>.+)$`: the maximal non-newline run, which must be nonempty and
leave only an admissible end. -/
def villePart (cs : List Char) : Option (List Char) :=
  let p := cs.takeWhile isDot
  if p.isEmpty then none
  else if endOk (cs.drop p.length) then some p else none

/-- `\s+(?P<ville>.+)$` starting with `j` whitespace characters, `j` counting
down from the maximal run (greedy backtracking). -/
def spVille : Nat → List Char → Option (List Char)
  | 0, _ => none
  | j + 1, cs =>
    match villePart (cs.drop (j + 1)) with
    | some v => some v
    | none => spVille j cs

/-- `(?P<cp>\d{5})\s+(?P<ville>.+)$`. -/
def cpPart (cs : List Char) : Option (List Char × List Char) :=
  let cp := cs.take 5
  if cp.length == 5 && cp.all isDigitC then
    let rest := cs.drop 5
    let w := wsCount rest
    if w == 0 then none
    else
      match spVille w rest with
      | some v => some (cp, v)
      | none => none
  else none

/-- `\s+(?P<cp>\d{5})\s+(?P<ville>.+)$` with greedy backtracking on the
leading whitespace run. -/
def spCp : Nat → List Char → Option (List Char × List Char)
  | 0, _ => none
  | j + 1, cs =>
    match cpPart (cs.drop (j + 1)) with
    | some r => some r
    | none => spCp j cs

/-- `(?P<voie>.+?)\s+(?P<cp>\d{5})\s+(?P<ville>.+)$`: the lazy `voie` group
tries lengths `k, k+1, …` in that order; a `voie` prefix that leaves the
string or contains a newline stops the search. -/
def voieFrom (fuel k : Nat) (cs : List Char) : Option (List Char × List Char × List Char) :=
  match fuel with
  | 0 => none
  | fuel' + 1 =>
    let voie := cs.take k
    if voie.length == k && voie.all isDot then
      let rest := cs.drop k
      let w := wsCount rest
      let attempt :=
        if w == 0 then none
        else
          match spCp w rest with
          | some (cp, v) => some (voie, cp, v)
          | none => none
      match attempt with
      | some r => some r
      | none => voieFrom fuel' (k + 1) cs
    else none

/-- `\s+(?P<voie>.+?)…` with greedy backtracking on the whitespace run. -/
def spVoie : Nat → List Char → Option (List Char × List Char × List Char)
  | 0, _ => none
  | j + 1, cs =>
    let rest := cs.drop (j + 1)
    match voieFrom (rest.length + 1) 1 rest with
    | some r => some r
    | none => spVoie j cs

/-- `re.match` of the whole fallback pattern: returns the four captured
groups (`num`, `voie`, `cp`, `ville`) on success. -/
def matchAddr (cs : List Char) : Option (List Char × List Char × List Char × List Char) :=
  let cs1 := cs.dropWhile isPySpace
  let ds := cs1.takeWhile isDigitC
  if ds.isEmpty then none
  else
    match cs1.drop ds.length with
    | [] => none
    | c :: rest' =>
      let nr := if isWordC c then (ds ++ [c], rest') else (ds, c :: rest')
      let w := wsCount nr.2
      if w == 0 then none
      else
        match spVoie w nr.2 with
        | some (voie, cp, ville) => some (nr.1, voie, cp, ville)
        | none => none

/-- The dictionary returned by `split_address`. -/
structure ParsedAddress where
  num : String
  voie : String
  cp : String
  ville : String
  pays : String
  deriving DecidableEq, Repr

/-- `split_address` (regex-fallback branch): the captured groups on a match,
all-empty fields otherwise; the country is always `"FR"`. -/
def split_address (addr : String) : ParsedAddress :=
  match matchAddr addr.toList with
  | some (n, v, c, vi) => ⟨n.asString, v.asString, c.asString, vi.asString, "FR"⟩
  | none => ⟨"", "", "", "", "FR"⟩

/-! ### Data model for the pipeline

A pandas DataFrame becomes a column-name list together with a list of rows,
a row being a cell lookup by column name (the program only ever accesses
cells by column name).  The four PF-table record types are order-significant
`List String`s under a fixed header. -/

/-- A source DataFrame: column names plus rows (cell lookup by column). -/
structure DF where
  cols : List String
  rows : List (String → String)

/-- One output table: a fixed header and its records in order. -/
structure Table where
  header : List String
  rows : List (List String)
  deriving DecidableEq, Repr

/-- The tuple returned by `build_tables`: PF1–PF5 always, PF6 only for cXML
(the Python function returns a 5- or 6-tuple; the optional sixth component
models that arity). -/
structure Tables where
  pf1 : Table
  pf2 : Table
  pf3 : Table
  pf4 : Table
  pf5 : Table
  pf6 : Option Table
  deriving DecidableEq, Repr

/-- The form parameters read by `build_tables` and the action block
(Streamlit widgets `integration_type`, `entreprise`, `punchout_user`,
`domain`, `identity`, `vm_choice`, `pc_enabled`, `pc_name`). -/
structure Params where
  entreprise : String
  punchout_user : String
  domain : String
  identity : String
  vm_choice : String
  pc_enabled : String
  pc_name : String
  integration_type : String

/-- `TEMPLATE_COLS` (Multi.py line 45). -/
def TEMPLATE_COLS : List String :=
  ["Numéro de compte", "Raison sociale", "Adresse", "ManagingBranch"]

/-- `TEMPLATE_COLS` in Python string-sort order, used to render
`', '.join(sorted(missing))`: filtering this list by absence from the
DataFrame's columns yields exactly `sorted(set(TEMPLATE_COLS) - set(df.columns))`. -/
def SORTED_TEMPLATE_COLS : List String :=
  ["Adresse", "ManagingBranch", "Numéro de compte", "Raison sociale"]

/-- `pc_value = f"PC_{pc_name}" if pc_enabled == "True" and pc_name else ""`
(line 150; `pc_name` is truthy iff nonempty). -/
def pcValue (p : Params) : String :=
  if p.pc_enabled == "True" && !(p.pc_name == "") then "PC_" ++ p.pc_name else ""

/-- `config_col` (line 151). -/
def configCol (p : Params) : String :=
  if p.integration_type == "OCI" then "OCIAssignedConfiguration"
  else "CXmIAssignedConfiguration"

/-- PF2's header (lines 159–163, exactly as in the source, typo included). -/
def PF2_COLS : List String :=
  ["B2B Unit", "ADRESSE / Numéro de rue", "ADRESSE / rue",
   "ADRESSEE Code postal", "ADRESSE / Ville", "ADRESSE / Pays/Région",
   "INFORMATIONS D'ADRESSE SUPPLÉMENTAIRES / Téléphone 1"]

/-- The PF1 record appended for row `r` (lines 176–180): note the third cell
(`locName`) is `r["Adresse"]`. -/
def pf1Row (p : Params) (r : String → String) : List String :=
  [r "Numéro de compte", r "Raison sociale", r "Adresse",
   "frx-variant-" ++ p.entreprise ++ "-configuration-set", pcValue p, p.vm_choice]

/-- The PF2 record appended for row `r` (line 182). -/
def pf2Row (r : String → String) : List String :=
  let addr := split_address (r "Adresse")
  [r "Numéro de compte", addr.num, addr.voie, addr.cp, addr.ville, addr.pays, ""]

/-- The PF3 record appended for row `r` (line 184). -/
def pf3Row (p : Params) (r : String → String) : List String :=
  [r "Numéro de compte", "PunchoutAccountAndBranchAssociation",
   r "ManagingBranch", p.punchout_user, "false"]

/-- The PF4 record appended for row `r` (line 185): the managing branch is
used for both `aliasName` and `branch`. -/
def pf4Row (p : Params) (r : String → String) : List String :=
  [r "ManagingBranch", r "ManagingBranch", p.punchout_user, "false"]

/-- The PF5 record appended for row `r` (line 186). -/
def pf5Row (p : Params) (r : String → String) : List String :=
  [r "Numéro de compte", p.punchout_user]

/-- The PF6 record appended for row `r` (line 189, cXML only). -/
def pf6Row (p : Params) (r : String → String) : List String :=
  [r "Numéro de compte", p.domain, p.identity]

/-- The tables built by the row loop of `build_tables` (lines 154–193):
each DataFrame starts from its fixed header and the loop appends one record
per source row, in source order. -/
def mkTables (p : Params) (df : DF) : Tables where
  pf1 := ⟨["uid", "name", "locName", configCol p, "pcCompoundProfile", "ViewMasterCatalog"],
          df.rows.map (pf1Row p)⟩
  pf2 := ⟨PF2_COLS, df.rows.map pf2Row⟩
  pf3 := ⟨["B2BUnitID", "itemtype", "managingBranches", "punchoutUserID", "sealed"],
          df.rows.map (pf3Row p)⟩
  pf4 := ⟨["aliasName", "branch", "punchoutUserID", "sealed"], df.rows.map (pf4Row p)⟩
  pf5 := ⟨["B2BUnitID", "punchoutUserID"], df.rows.map (pf5Row p)⟩
  pf6 := if p.integration_type == "cXML"
         then some ⟨["number", "domain", "identity"], df.rows.map (pf6Row p)⟩
         else none

/-- `missing = set(TEMPLATE_COLS) - set(df.columns)` in sorted order (the
order in which the raise at line 147 joins it). -/
def missingCols (df : DF) : List String :=
  SORTED_TEMPLATE_COLS.filter (fun c => !(df.cols.contains c))

/-- `build_tables` (lines 144–193): raise on missing required columns
(message `Colonnes manquantes : `-joined over the sorted missing names),
otherwise build the tables. -/
def build_tables (p : Params) (df : DF) : Except String Tables :=
  if (missingCols df).isEmpty then .ok (mkTables p df)
  else .error ("Colonnes manquantes : " ++ String.intercalate ", " (missingCols df))

/-! ### The generation action block (lines 196–240) -/

/-- What the action block surfaces on failure: either an exception message
shown via `st.error(f"❌ {err}")`, or an invalid-values report
(`st.error` count message plus the `st.dataframe` of 1-based line numbers and
offending values) followed by `st.stop()`. -/
inductive GenError where
  | msg (s : String)
  | report (col : String) (count : Nat) (rows : List (Nat × String))
  deriving DecidableEq, Repr

/-- The fixed message of the pre-check at lines 206–207. -/
def preMsg : String :=
  "Colonnes 'Numéro de compte' ou 'ManagingBranch' manquantes."

/-- The rows of the invalid-report dataframe: 1-based index (pandas
`series.index[mask] + 1` over the default RangeIndex) paired with the
sanitized value at that index, for every index where the mask holds. -/
def reportRows : Nat → List String → List Bool → List (Nat × String)
  | _, [], _ => []
  | _, _ :: _, [] => []
  | i, v :: vs, b :: bs =>
    (if b then [(i + 1, v)] else []) ++ reportRows (i + 1) vs bs

/-- The write-back `df_src["Numéro de compte"] = acc_series;
df_src["ManagingBranch"] = man_series` (lines 234–235): each row's two
identifier cells are replaced by the sanitized series values. -/
def updateRows : List (String → String) → List String → List String → List (String → String)
  | r :: rs, a :: a2, m :: m2 =>
    (fun c => if c == "Numéro de compte" then a
              else if c == "ManagingBranch" then m else r c) :: updateRows rs a2 m2
  | _, _, _ => []

/-- The account-number column of the source DataFrame. -/
def accCol (df : DF) : List String :=
  df.rows.map (fun r => r "Numéro de compte")

/-- The managing-branch column of the source DataFrame. -/
def manCol (df : DF) : List String :=
  df.rows.map (fun r => r "ManagingBranch")

/-- `sanitize_numeric(df_src["Numéro de compte"], 7)` (line 209). -/
def accSan (df : DF) : List String × List Bool :=
  sanitize_numeric (accCol df) 7

/-- `sanitize_numeric(df_src["ManagingBranch"], 4)` (line 210). -/
def manSan (df : DF) : List String × List Bool :=
  sanitize_numeric (manCol df) 4

/-- The `try`-block of the generate action (lines 202–237), given a
successfully read DataFrame: the column pre-check, the account-number check
(report and stop on any invalid value), the branch check likewise, the
write-back of the sanitized series, and the `build_tables` call whose
`ValueError` is surfaced as a message. -/
def generate (p : Params) (df : DF) : Except GenError Tables :=
  if !(df.cols.contains "Numéro de compte") || !(df.cols.contains "ManagingBranch") then
    .error (.msg preMsg)
  else if (accSan df).2.any id then
    .error (.report "Numéro de compte" ((accSan df).2.count true)
              (reportRows 0 (accSan df).1 (accSan df).2))
  else if (manSan df).2.any id then
    .error (.report "ManagingBranch" ((manSan df).2.count true)
              (reportRows 0 (manSan df).1 (manSan df).2))
  else
    match build_tables p ⟨df.cols, updateRows df.rows (accSan df).1 (manSan df).1⟩ with
    | .ok t => .ok t
    | .error e => .error (.msg e)

/-! ### A substring test, used to state what an error message names -/

/-- `needle` starts the list `hay`. -/
def leadsWith : List Char → List Char → Bool
  | [], _ => true
  | _ :: _, [] => false
  | a :: as2, b :: bs => a == b && leadsWith as2 bs

/-- `needle` occurs somewhere in `hay` (Python `needle in hay`). -/
def hasSub (needle : List Char) : List Char → Bool
  | [] => leadsWith needle []
  | c :: rest => leadsWith needle (c :: rest) || hasSub needle rest

/-- A message names a column when the column's name occurs in it verbatim. -/
def mentions (msg col : String) : Bool :=
  hasSub col.toList msg.toList

end Multico

namespace Multico

/-! ### Concrete inputs used by witnesses and counterexamples -/

/-- A row of the source dataset with the four template cells filled. -/
def rowF (a rs ad m : String) : String → String :=
  fun c => if c == "Numéro de compte" then a
           else if c == "Raison sociale" then rs
           else if c == "Adresse" then ad
           else if c == "ManagingBranch" then m else ""

/-- A cXML parameter set. -/
def pEx : Params :=
  ⟨"ACME-ID", "puser", "NetworkID", "ident", "True", "False", "", "cXML"⟩

/-- The same parameters with integration type OCI. -/
def pOCI : Params :=
  { pEx with integration_type := "OCI" }

/-- The parameters with the personal-catalogue option enabled. -/
def pPC : Params :=
  { pEx with pc_enabled := "True", pc_name := "CATA" }

/-- A valid one-row dataset whose company name differs from its address. -/
def dfEx : DF :=
  ⟨TEMPLATE_COLS, [rowF "1234567" "ACME" "10 Rue de la Paix 75002 Paris" "0042"]⟩

/-- A two-row dataset with a repeated managing branch. -/
def dfDup : DF :=
  ⟨TEMPLATE_COLS, [rowF "1234567" "ACME" "X" "0042", rowF "7654321" "BETA" "Y" "0042"]⟩

/-- A dataset whose single row fails both the account-number and the
branch-code validation. -/
def dfBad : DF :=
  ⟨TEMPLATE_COLS, [rowF "abc" "ACME" "X" "xy"]⟩

/-- A dataset missing the account-number, address and branch columns. -/
def dfC3 : DF :=
  ⟨["Raison sociale"], []⟩

/-- A dataset with valid rows but no `Adresse` column. -/
def dfNoAddr : DF :=
  ⟨["Numéro de compte", "Raison sociale", "ManagingBranch"],
   [rowF "1234567" "ACME" "" "0042"]⟩

/-- A dataset with all four required columns and no rows. -/
def dfEmpty : DF :=
  ⟨TEMPLATE_COLS, []⟩

/-- A dataset whose single row has a valid account number but an invalid
managing branch. -/
def dfManBad : DF :=
  ⟨TEMPLATE_COLS, [rowF "1234567" "ACME" "X" "xy"]⟩

/-- A valid dataset whose identifiers need zero-padding. -/
def dfPad : DF :=
  ⟨TEMPLATE_COLS, [rowF "123" "ACME" "X" "42"]⟩

/-- The tables the generate action produces for `dfPad`. -/
def tPad : Tables :=
  mkTables pEx ⟨dfPad.cols, updateRows dfPad.rows (accSan dfPad).1 (manSan dfPad).1⟩

/-! ### Helper lemmas -/

theorem asString_data (l : List Char) : (l.asString).data = l := rfl

theorem length_asString (l : List Char) : (l.asString).length = l.length := rfl

theorem zfill_toList (s : String) (w : Nat) :
    (zfill s w).toList = List.replicate (w - s.length) '0' ++ s.toList := by
  show (zfill s w).data = _
  rw [zfill, String.data_append, asString_data]; rfl

theorem zfill_length (s : String) (w : Nat) (h : s.length ≤ w) :
    (zfill s w).length = w := by
  rw [zfill, String.length_append, length_asString, List.length_replicate]
  omega

theorem zfill_digits (s : String) (w : Nat) (h : s.toList.all isDigitC = true) :
    (zfill s w).toList.all isDigitC = true := by
  rw [zfill_toList, List.all_append, h, Bool.and_true, List.all_eq_true]
  intro c hc
  rw [(List.mem_replicate.mp hc).2]
  decide

theorem sanitize_fst (vals : List String) (w : Nat) :
    (sanitize_numeric vals w).1 = vals.map (sanitizeOne w) := rfl

theorem sanitize_snd (vals : List String) (w : Nat) :
    (sanitize_numeric vals w).2 =
      (vals.map (sanitizeOne w)).map (fun s => !isWidthDigits w s) := rfl

theorem sanitize_all_valid (vals : List String) (w : Nat)
    (h : (sanitize_numeric vals w).2.any id = false) :
    ∀ s ∈ (sanitize_numeric vals w).1, isWidthDigits w s = true := by
  intro s hs
  have hmem : (!isWidthDigits w s) ∈ (sanitize_numeric vals w).2 := by
    rw [sanitize_snd]
    exact List.mem_map.mpr ⟨s, by rw [sanitize_fst] at hs; exact hs, rfl⟩
  have := List.any_eq_false.mp h _ hmem
  simpa using this

theorem build_tables_ok {p : Params} {df : DF} {t : Tables}
    (h : build_tables p df = .ok t) :
    missingCols df = [] ∧ t = mkTables p df := by
  rw [build_tables] at h
  split at h
  · next hempty => exact ⟨List.isEmpty_iff.mp hempty, by cases h; rfl⟩
  · cases h

theorem generate_ok {p : Params} {df : DF} {t : Tables}
    (h : generate p df = .ok t) :
    df.cols.contains "Numéro de compte" = true ∧
    df.cols.contains "ManagingBranch" = true ∧
    (accSan df).2.any id = false ∧ (manSan df).2.any id = false ∧
    build_tables p ⟨df.cols, updateRows df.rows (accSan df).1 (manSan df).1⟩ = .ok t := by
  rw [generate] at h
  split at h
  · cases h
  · next hcond =>
    rw [Bool.or_eq_true, Bool.not_eq_true', Bool.not_eq_true'] at hcond
    push_neg at hcond
    obtain ⟨h1, h2⟩ := hcond
    split at h
    · cases h
    · next hacc =>
      split at h
      · cases h
      · next hman =>
        refine ⟨by simpa using h1, by simpa using h2,
                Bool.not_eq_true _ ▸ Bool.of_not_eq_true hacc,
                Bool.not_eq_true _ ▸ Bool.of_not_eq_true hman, ?_⟩
        split at h
        · next hb => cases h; exact hb
        · cases h

theorem updateRows_map_acc :
    ∀ (rows : List (String → String)) (a m : List String),
      a.length = rows.length → m.length = rows.length →
      (updateRows rows a m).map (fun r => r "Numéro de compte") = a := by
  intro rows
  induction rows with
  | nil =>
    intro a m ha _
    cases a with
    | nil => rfl
    | cons x xs => simp at ha
  | cons r rs ih =>
    intro a m ha hm
    cases a with
    | nil => simp at ha
    | cons x xs =>
      cases m with
      | nil => simp at hm
      | cons y ys =>
        simp only [updateRows, List.map, List.cons.injEq]
        exact ⟨by simp, ih xs ys (by simpa using ha) (by simpa using hm)⟩

theorem updateRows_map_man :
    ∀ (rows : List (String → String)) (a m : List String),
      a.length = rows.length → m.length = rows.length →
      (updateRows rows a m).map (fun r => r "ManagingBranch") = m := by
  intro rows
  induction rows with
  | nil =>
    intro a m _ hm
    cases a with
    | nil =>
      cases m with
      | nil => rfl
      | cons y ys => simp at hm
    | cons x xs =>
      cases m with
      | nil => rfl
      | cons y ys => simp at hm
  | cons r rs ih =>
    intro a m ha hm
    cases a with
    | nil => simp at ha
    | cons x xs =>
      cases m with
      | nil => simp at hm
      | cons y ys =>
        simp only [updateRows, List.map,
          show (("ManagingBranch" == "Numéro de compte") = false) from by decide,
          List.cons.injEq]
        exact ⟨by simp, ih xs ys (by simpa using ha) (by simpa using hm)⟩

theorem mem_reportRows :
    ∀ (vals : List String) (inv : List Bool) (k i : Nat) (v : String),
      vals[i]? = some v → inv[i]? = some true →
      (k + i + 1, v) ∈ reportRows k vals inv := by
  intro vals
  induction vals with
  | nil => intro inv k i v hv _; simp at hv
  | cons x xs ih =>
    intro inv k i v hv hb
    cases inv with
    | nil => simp at hb
    | cons b bs =>
      cases i with
      | zero =>
        simp only [List.getElem?_cons_zero, Option.some_inj] at hv hb
        subst hv; subst hb
        simp [reportRows]
      | succ n =>
        simp only [List.getElem?_cons_succ] at hv hb
        have h := ih bs (k + 1) n v hv hb
        have e : k + 1 + n + 1 = k + (n + 1) + 1 := by omega
        rw [e] at h
        exact List.mem_append.mpr (Or.inr h)

/-! ### Claims -/

/-- C5: `sanitize_numeric` trims whitespace from each value, left-pads all-digit
values no longer than the width with zeros to exactly `width` digits (the padded
value then being exactly `width` digits long), leaves every other value at its
trimmed form, and marks position `i` invalid iff the resulting value is not
exactly `width` digits; on `["123", "1234567", "abc"]` with width 7 it yields
`["0000123", "1234567", "abc"]` with mask `[false, false, true]`. -/
theorem C5_sanitize_spec :
    sanitize_numeric ["123", "1234567", "abc"] 7 =
      (["0000123", "1234567", "abc"], [false, false, true]) ∧
    (∀ (vals : List String) (w i : Nat) (x : String), vals[i]? = some x →
      ((isDigits (pyStrip x) = true ∧ (pyStrip x).length ≤ w →
          (sanitize_numeric vals w).1[i]? = some (zfill (pyStrip x) w) ∧
          (zfill (pyStrip x) w).length = w ∧
          (zfill (pyStrip x) w).toList.all isDigitC = true) ∧
       (¬(isDigits (pyStrip x) = true ∧ (pyStrip x).length ≤ w) →
          (sanitize_numeric vals w).1[i]? = some (pyStrip x)))) ∧
    (∀ (vals : List String) (w i : Nat) (v : String),
      (sanitize_numeric vals w).1[i]? = some v →
      (sanitize_numeric vals w).2[i]? = some (!isWidthDigits w v)) := by
  refine ⟨rfl, ?_, ?_⟩
  · intro vals w i x hx
    constructor
    · rintro ⟨hd, hl⟩
      refine ⟨?_, zfill_length _ _ hl, zfill_digits _ _ ((Bool.and_eq_true _ _).mp hd).2⟩
      rw [sanitize_fst, List.getElem?_map, hx]
      simp [sanitizeOne, hd, hl]
    · intro hneg
      have hfalse : (isDigits (pyStrip x) && decide ((pyStrip x).length ≤ w)) = false := by
        cases hd : isDigits (pyStrip x) with
        | false => simp
        | true =>
          have hnl : ¬(pyStrip x).length ≤ w := fun hle => hneg ⟨hd, hle⟩
          simp [hnl]
      rw [sanitize_fst, List.getElem?_map, hx]
      simp [sanitizeOne, hfalse]
  · intro vals w i v hv
    rw [sanitize_fst] at hv
    rw [sanitize_snd, List.getElem?_map, hv]
    rfl

/-- Witness for C5: the value `" 42 "` at width 4 is stripped to `"42"` and
zero-padded to the 4-digit `"0042"`. -/
theorem C5_sanitize_spec_witness :
    (sanitize_numeric [" 42 "] 4).1[0]? = some (zfill (pyStrip " 42 ") 4) ∧
    (zfill (pyStrip " 42 ") 4).length = 4 := by
  have h := (C5_sanitize_spec.2.1 [" 42 "] 4 0 " 42 " rfl).1 ⟨rfl, by decide⟩
  exact ⟨h.1, h.2.1⟩

/-- C6: under the regex fallback, `"10 Rue de la Paix 75002 Paris"` parses to
house number `"10"`, street `"Rue de la Paix"`, postal code `"75002"`, city
`"Paris"`, country `"FR"`; the empty address and every address the anchored
pattern does not match yield all-empty fields except country = `"FR"`. -/
theorem C6_fallback_address :
    split_address "10 Rue de la Paix 75002 Paris" =
      ⟨"10", "Rue de la Paix", "75002", "Paris", "FR"⟩ ∧
    split_address "" = ⟨"", "", "", "", "FR"⟩ ∧
    ∀ addr : String, matchAddr addr.toList = none →
      split_address addr = ⟨"", "", "", "", "FR"⟩ := by
  refine ⟨rfl, rfl, ?_⟩
  intro addr h
  rw [split_address, h]

/-- Witness for C6: `"garbage address"` does not match the pattern, so every
field is empty except the country. -/
theorem C6_fallback_address_witness :
    split_address "garbage address" = ⟨"", "", "", "", "FR"⟩ :=
  C6_fallback_address.2.2 "garbage address" rfl

/-- C1 as stated is false: the third PF1 cell (`locName`) receives the row's
address (`r["Adresse"]`, Multi.py line 177), not the row's company name.  On a
row with company name `"ACME"` and address `"10 Rue de la Paix 75002 Paris"`,
the produced `locName` is the address. -/
theorem C1_locName_counterexample :
    (build_tables pEx dfEx).map (fun t => t.pf1.rows.map (fun l => l.getD 2 "")) =
      .ok ["10 Rue de la Paix 75002 Paris"] ∧
    dfEx.rows.map (fun r => r "Raison sociale") = ["ACME"] ∧
    ("10 Rue de la Paix 75002 Paris" : String) ≠ "ACME" :=
  ⟨rfl, rfl, by decide⟩

/-- C1 (amended): each PF1 record is, in order, uid = the row's account
number, name = the row's company name, locName = the row's *address*, the
integration-type-dependent configuration column =
`frx-variant-{company_id}-configuration-set`, pcCompoundProfile =
`PC_{personal_catalogue_name}` when the personal-catalogue option is enabled
with a nonempty name and `""` otherwise, and ViewMasterCatalog = the literal
flag string. -/
theorem C1_pf1_record_amended (p : Params) (df : DF) (t : Tables)
    (h : build_tables p df = .ok t) :
    t.pf1.header =
      ["uid", "name", "locName", configCol p, "pcCompoundProfile", "ViewMasterCatalog"] ∧
    t.pf1.rows = df.rows.map (fun r =>
      [r "Numéro de compte", r "Raison sociale", r "Adresse",
       "frx-variant-" ++ p.entreprise ++ "-configuration-set", pcValue p, p.vm_choice]) ∧
    (p.integration_type = "OCI" → configCol p = "OCIAssignedConfiguration") ∧
    (p.integration_type ≠ "OCI" → configCol p = "CXmIAssignedConfiguration") ∧
    (p.pc_enabled = "True" → p.pc_name ≠ "" → pcValue p = "PC_" ++ p.pc_name) ∧
    (¬(p.pc_enabled = "True" ∧ p.pc_name ≠ "") → pcValue p = "") := by
  obtain ⟨-, ht⟩ := build_tables_ok h
  subst ht
  refine ⟨rfl, rfl, ?_, ?_, ?_, ?_⟩
  · intro hO; simp [configCol, hO]
  · intro hO; simp [configCol, beq_iff_eq, hO]
  · intro he hn; simp [pcValue, he, hn]
  · intro hna
    by_cases he : p.pc_enabled = "True"
    · have hn : p.pc_name = "" := by
        by_contra hh
        exact hna ⟨he, hh⟩
      simp [pcValue, hn]
    · simp [pcValue, beq_iff_eq, he]

/-- Witness for C1 (amended): with the personal catalogue enabled under name
`CATA` and a cXML integration, PF1's fourth column is
`CXmIAssignedConfiguration` and the compound profile is `PC_CATA`. -/
theorem C1_pf1_record_witness :
    (mkTables pPC dfEx).pf1.header =
      ["uid", "name", "locName", "CXmIAssignedConfiguration",
       "pcCompoundProfile", "ViewMasterCatalog"] ∧
    pcValue pPC = "PC_CATA" := by
  have h := C1_pf1_record_amended pPC dfEx (mkTables pPC dfEx) rfl
  exact ⟨h.1, h.2.2.2.2.1 rfl (by decide)⟩

/-- C4: integration type OCI produces no PF6 and names PF1's configuration
column `OCIAssignedConfiguration`; integration type cXML produces PF6 with
columns number/domain/identity and one record per source row, and names the
column `CXmIAssignedConfiguration`. -/
theorem C4_integration_type (p : Params) (df : DF) (t : Tables)
    (h : build_tables p df = .ok t) :
    (p.integration_type = "OCI" →
      t.pf6 = none ∧
      t.pf1.header = ["uid", "name", "locName", "OCIAssignedConfiguration",
                      "pcCompoundProfile", "ViewMasterCatalog"]) ∧
    (p.integration_type = "cXML" →
      ∃ u, t.pf6 = some u ∧ u.header = ["number", "domain", "identity"] ∧
        u.rows = df.rows.map (fun r => [r "Numéro de compte", p.domain, p.identity]) ∧
        t.pf1.header = ["uid", "name", "locName", "CXmIAssignedConfiguration",
                        "pcCompoundProfile", "ViewMasterCatalog"]) := by
  obtain ⟨-, ht⟩ := build_tables_ok h
  subst ht
  constructor
  · intro hO
    constructor
    · simp [mkTables, hO]
    · simp [mkTables, configCol, hO]
  · intro hC
    refine ⟨⟨["number", "domain", "identity"], df.rows.map (pf6Row p)⟩, ?_, rfl, rfl, ?_⟩
    · simp [mkTables, hC]
    · simp [mkTables, configCol, beq_iff_eq, hC]

/-- Witness for C4: the OCI parameter set yields no PF6 and the
`OCIAssignedConfiguration` column. -/
theorem C4_integration_type_witness :
    (mkTables pOCI dfEx).pf6 = none ∧
    (mkTables pOCI dfEx).pf1.header =
      ["uid", "name", "locName", "OCIAssignedConfiguration",
       "pcCompoundProfile", "ViewMasterCatalog"] :=
  (C4_integration_type pOCI dfEx (mkTables pOCI dfEx) rfl).1 rfl

/-- C8: every produced table has exactly one record per source row, in source
order; in particular record `i` of PF3 and PF4 carries row `i`'s managing
branch even when branch values repeat across rows (no deduplication). -/
theorem C8_row_order (p : Params) (df : DF) (t : Tables)
    (h : build_tables p df = .ok t) :
    t.pf1.rows.length = df.rows.length ∧ t.pf2.rows.length = df.rows.length ∧
    t.pf3.rows.length = df.rows.length ∧ t.pf4.rows.length = df.rows.length ∧
    t.pf5.rows.length = df.rows.length ∧
    (∀ u, t.pf6 = some u → u.rows.length = df.rows.length) ∧
    ∀ (i : Nat) (r : String → String), df.rows[i]? = some r →
      t.pf1.rows[i]? = some [r "Numéro de compte", r "Raison sociale", r "Adresse",
        "frx-variant-" ++ p.entreprise ++ "-configuration-set", pcValue p, p.vm_choice] ∧
      t.pf2.rows[i]? = some [r "Numéro de compte", (split_address (r "Adresse")).num,
        (split_address (r "Adresse")).voie, (split_address (r "Adresse")).cp,
        (split_address (r "Adresse")).ville, (split_address (r "Adresse")).pays, ""] ∧
      t.pf3.rows[i]? = some [r "Numéro de compte", "PunchoutAccountAndBranchAssociation",
        r "ManagingBranch", p.punchout_user, "false"] ∧
      t.pf4.rows[i]? = some [r "ManagingBranch", r "ManagingBranch",
        p.punchout_user, "false"] ∧
      t.pf5.rows[i]? = some [r "Numéro de compte", p.punchout_user] ∧
      (∀ u, t.pf6 = some u → u.rows[i]? = some [r "Numéro de compte", p.domain, p.identity]) := by
  obtain ⟨-, ht⟩ := build_tables_ok h
  subst ht
  refine ⟨by simp [mkTables], by simp [mkTables], by simp [mkTables], by simp [mkTables],
          by simp [mkTables], ?_, ?_⟩
  · intro u hu
    simp only [mkTables] at hu
    split at hu
    · cases hu; simp
    · cases hu
  · intro i r hr
    refine ⟨?_, ?_, ?_, ?_, ?_, ?_⟩
    · simp only [mkTables]
      rw [List.getElem?_map, hr]; rfl
    · simp only [mkTables]
      rw [List.getElem?_map, hr]; rfl
    · simp only [mkTables]
      rw [List.getElem?_map, hr]; rfl
    · simp only [mkTables]
      rw [List.getElem?_map, hr]; rfl
    · simp only [mkTables]
      rw [List.getElem?_map, hr]; rfl
    · intro u hu
      simp only [mkTables] at hu
      split at hu
      · cases hu
        rw [List.getElem?_map, hr]; rfl
      · cases hu

/-- Witness for C8: on a two-row dataset whose rows repeat the branch `0042`,
PF4 keeps both records, in row order. -/
theorem C8_row_order_witness :
    (mkTables pEx dfDup).pf4.rows[0]? = some ["0042", "0042", "puser", "false"] ∧
    (mkTables pEx dfDup).pf4.rows[1]? = some ["0042", "0042", "puser", "false"] ∧
    (mkTables pEx dfDup).pf4.rows.length = dfDup.rows.length := by
  have h := C8_row_order pEx dfDup (mkTables pEx dfDup) rfl
  refine ⟨?_, ?_, h.2.2.2.1⟩
  · exact (h.2.2.2.2.2.2 0 (rowF "1234567" "ACME" "X" "0042") rfl).2.2.2.1
  · exact (h.2.2.2.2.2.2 1 (rowF "7654321" "BETA" "Y" "0042") rfl).2.2.2.1

/-- C10: on a dataset that has all four required columns and zero rows,
`build_tables` succeeds and returns the five tables (six for cXML) with their
fixed headers and no records. -/
theorem C10_empty_dataset (p : Params) (df : DF)
    (hc : ∀ c ∈ TEMPLATE_COLS, df.cols.contains c = true) (hr : df.rows = []) :
    build_tables p df =
      .ok ⟨⟨["uid", "name", "locName", configCol p, "pcCompoundProfile", "ViewMasterCatalog"], []⟩,
           ⟨PF2_COLS, []⟩,
           ⟨["B2BUnitID", "itemtype", "managingBranches", "punchoutUserID", "sealed"], []⟩,
           ⟨["aliasName", "branch", "punchoutUserID", "sealed"], []⟩,
           ⟨["B2BUnitID", "punchoutUserID"], []⟩,
           if p.integration_type = "cXML"
           then some ⟨["number", "domain", "identity"], []⟩ else none⟩ := by
  have hm : missingCols df = [] := by
    rw [missingCols, List.filter_eq_nil_iff]
    intro c hcmem
    have hcc : df.cols.contains c = true := by
      fin_cases hcmem <;> exact hc _ (by simp [TEMPLATE_COLS])
    simpa using hcc
  rw [build_tables, hm]
  simp [mkTables, hr, beq_iff_eq]

/-- Witness for C10: the empty dataset under OCI yields the five empty
tables and no PF6. -/
theorem C10_empty_dataset_witness :
    build_tables pOCI dfEmpty =
      .ok ⟨⟨["uid", "name", "locName", "OCIAssignedConfiguration",
             "pcCompoundProfile", "ViewMasterCatalog"], []⟩,
           ⟨PF2_COLS, []⟩,
           ⟨["B2BUnitID", "itemtype", "managingBranches", "punchoutUserID", "sealed"], []⟩,
           ⟨["aliasName", "branch", "punchoutUserID", "sealed"], []⟩,
           ⟨["B2BUnitID", "punchoutUserID"], []⟩, none⟩ := by
  have h := C10_empty_dataset pOCI dfEmpty (by decide) rfl
  simpa using h

/-- C7: whenever any account-number or branch-code value of the dataset is
invalid, the generate action never returns tables — partial output is never
emitted. -/
theorem C7_no_partial_output (p : Params) (df : DF)
    (h : (accSan df).2.any id = true ∨ (manSan df).2.any id = true) :
    ∀ t : Tables, generate p df ≠ .ok t := by
  intro t hok
  obtain ⟨-, -, ha, hm, -⟩ := generate_ok hok
  rcases h with h | h
  · rw [ha] at h; simp at h
  · rw [hm] at h; simp at h

/-- Witness for C7: the dataset with the invalid account number `"abc"`
yields no tables. -/
theorem C7_no_partial_output_witness :
    generate pEx dfBad ≠ .ok (mkTables pEx dfBad) :=
  C7_no_partial_output pEx dfBad (Or.inl rfl) (mkTables pEx dfBad)

/-- C2 as stated is false: on a dataset whose single row fails both the
account-number check and the branch-code check, the run reports only the
account-number failures and stops (`st.stop()` at line 221) — the branch
report is never shown. -/
theorem C2_both_reports_counterexample :
    generate pEx dfBad = .error (.report "Numéro de compte" 1 [(1, "abc")]) ∧
    (manSan dfBad).2 = [true] :=
  ⟨rfl, rfl⟩

/-- C2 (amended): when any account number is invalid the run aborts with the
account-number report, which lists every offending row (1-based index and
sanitized value); the branch-code report, likewise complete, is shown only
when every account number is valid — the two reports are never shown
together. -/
theorem C2_first_report_amended (p : Params) (df : DF)
    (h1 : df.cols.contains "Numéro de compte" = true)
    (h2 : df.cols.contains "ManagingBranch" = true) :
    ((accSan df).2.any id = true →
      generate p df = .error (.report "Numéro de compte" ((accSan df).2.count true)
        (reportRows 0 (accSan df).1 (accSan df).2)) ∧
      ∀ (i : Nat) (v : String),
        (accSan df).1[i]? = some v → (accSan df).2[i]? = some true →
        (i + 1, v) ∈ reportRows 0 (accSan df).1 (accSan df).2) ∧
    ((accSan df).2.any id = false → (manSan df).2.any id = true →
      generate p df = .error (.report "ManagingBranch" ((manSan df).2.count true)
        (reportRows 0 (manSan df).1 (manSan df).2)) ∧
      ∀ (i : Nat) (v : String),
        (manSan df).1[i]? = some v → (manSan df).2[i]? = some true →
        (i + 1, v) ∈ reportRows 0 (manSan df).1 (manSan df).2) := by
  have h1m : "Numéro de compte" ∈ df.cols := by simpa using h1
  have h2m : "ManagingBranch" ∈ df.cols := by simpa using h2
  constructor
  · intro ha
    constructor
    · simp [generate, h1m, h2m, ha]
    · intro i v hv hb
      have h := mem_reportRows (accSan df).1 (accSan df).2 0 i v hv hb
      rwa [Nat.zero_add] at h
  · intro ha hm
    constructor
    · simp [generate, h1m, h2m, ha, hm]
    · intro i v hv hb
      have h := mem_reportRows (manSan df).1 (manSan df).2 0 i v hv hb
      rwa [Nat.zero_add] at h

/-- Witness for C2 (amended): a row with valid account number `"1234567"` and
invalid branch `"xy"` triggers the branch report listing line 1. -/
theorem C2_first_report_witness :
    generate pEx dfManBad = .error (.report "ManagingBranch" 1 [(1, "xy")]) ∧
    (1, "xy") ∈ reportRows 0 (manSan dfManBad).1 (manSan dfManBad).2 := by
  have h := (C2_first_report_amended pEx dfManBad rfl rfl).2 rfl rfl
  exact ⟨h.1, h.2 0 "xy" rfl rfl⟩

/-- C3 as stated is false: when the account-number (or branch) column is
missing, the pre-check at lines 206–207 aborts with a fixed message that
names only those two columns; on a dataset that also lacks the `Adresse`
column, the abort message does not name it. -/
theorem C3_missing_columns_counterexample :
    generate pEx dfC3 = .error (.msg preMsg) ∧
    dfC3.cols.contains "Adresse" = false ∧
    mentions preMsg "Adresse" = false :=
  ⟨rfl, rfl, rfl⟩

/-- C3 (amended): if the account-number or branch column is missing, the run
aborts with the fixed two-column message before `build_tables` runs; when
both are present (and the numeric checks pass, which run first), a missing
company-name or address column aborts the run with a message that joins, in
sorted order, every missing required column — and that message names each of
them. -/
theorem C3_missing_columns_amended (p : Params) (df : DF) :
    ((df.cols.contains "Numéro de compte" = false ∨
      df.cols.contains "ManagingBranch" = false) →
      generate p df = .error (.msg preMsg)) ∧
    (df.cols.contains "Numéro de compte" = true →
     df.cols.contains "ManagingBranch" = true →
     (accSan df).2.any id = false → (manSan df).2.any id = false →
     missingCols df ≠ [] →
     generate p df = .error (.msg ("Colonnes manquantes : " ++
        String.intercalate ", " (missingCols df))) ∧
     ∀ c ∈ missingCols df,
       mentions ("Colonnes manquantes : " ++
         String.intercalate ", " (missingCols df)) c = true) := by
  constructor
  · intro h
    rw [generate,
        if_pos (by rw [Bool.or_eq_true, Bool.not_eq_true', Bool.not_eq_true']; exact h)]
  · intro h1 h2 ha hm hmiss
    constructor
    · rw [generate]
      rw [if_neg (by
        rw [Bool.or_eq_true, Bool.not_eq_true', Bool.not_eq_true']
        push_neg
        rw [h1, h2]
        simp)]
      rw [if_neg (by simp [ha])]
      rw [if_neg (by simp [hm])]
      have hb : build_tables p
          (⟨df.cols, updateRows df.rows (accSan df).1 (manSan df).1⟩ : DF) =
          .error ("Colonnes manquantes : " ++
            String.intercalate ", " (missingCols df)) := by
        rw [build_tables]
        rw [if_neg]
        · rfl
        · simp only [List.isEmpty_iff]
          exact hmiss
      rw [hb]
    · intro c hc
      have h1m : "Numéro de compte" ∈ df.cols := by simpa using h1
      have h2m : "ManagingBranch" ∈ df.cols := by simpa using h2
      cases hA : df.cols.contains "Adresse" with
      | false =>
        have hAm : "Adresse" ∉ df.cols := by simpa using hA
        cases hR : df.cols.contains "Raison sociale" with
        | false =>
          have hRm : "Raison sociale" ∉ df.cols := by simpa using hR
          have e : missingCols df = ["Adresse", "Raison sociale"] := by
            simp [missingCols, SORTED_TEMPLATE_COLS, List.filter_cons, h1m, h2m, hAm, hRm]
          rw [e] at hc ⊢
          fin_cases hc <;> rfl
        | true =>
          have hRm : "Raison sociale" ∈ df.cols := by simpa using hR
          have e : missingCols df = ["Adresse"] := by
            simp [missingCols, SORTED_TEMPLATE_COLS, List.filter_cons, h1m, h2m, hAm, hRm]
          rw [e] at hc ⊢
          fin_cases hc
          rfl
      | true =>
        have hAm : "Adresse" ∈ df.cols := by simpa using hA
        cases hR : df.cols.contains "Raison sociale" with
        | false =>
          have hRm : "Raison sociale" ∉ df.cols := by simpa using hR
          have e : missingCols df = ["Raison sociale"] := by
            simp [missingCols, SORTED_TEMPLATE_COLS, List.filter_cons, h1m, h2m, hAm, hRm]
          rw [e] at hc ⊢
          fin_cases hc
          rfl
        | true =>
          have hRm : "Raison sociale" ∈ df.cols := by simpa using hR
          have e : missingCols df = [] := by
            simp [missingCols, SORTED_TEMPLATE_COLS, List.filter_cons, h1m, h2m, hAm, hRm]
          rw [e] at hc
          cases hc

/-- Witness for C3 (amended): a valid dataset without the `Adresse` column
aborts with the `build_tables` message naming `Adresse`, while a dataset
without the account-number column aborts with the fixed pre-check message. -/
theorem C3_missing_columns_witness :
    generate pEx dfNoAddr = .error (.msg ("Colonnes manquantes : " ++
      String.intercalate ", " (missingCols dfNoAddr))) ∧
    mentions ("Colonnes manquantes : " ++
      String.intercalate ", " (missingCols dfNoAddr)) "Adresse" = true ∧
    generate pEx dfC3 = .error (.msg preMsg) := by
  have h := (C3_missing_columns_amended pEx dfNoAddr).2 rfl rfl rfl rfl (by decide)
  exact ⟨h.1, h.2 "Adresse" (by decide),
         (C3_missing_columns_amended pEx dfC3).1 (Or.inl rfl)⟩

/-- C9: whenever the generate action succeeds, every account-number cell of
PF1, PF2, PF3, PF5 and PF6 and every branch cell of PF3 and PF4 is the
corresponding sanitized series value — exactly 7 (respectively 4) digits —
because the padded series are written back into the dataset before
`build_tables` runs. -/
theorem C9_padded_written_back (p : Params) (df : DF) (t : Tables)
    (h : generate p df = .ok t) :
    (∀ a ∈ (accSan df).1, isWidthDigits 7 a = true) ∧
    (∀ m ∈ (manSan df).1, isWidthDigits 4 m = true) ∧
    t.pf1.rows.map (fun l => l.getD 0 "") = (accSan df).1 ∧
    t.pf2.rows.map (fun l => l.getD 0 "") = (accSan df).1 ∧
    t.pf3.rows.map (fun l => l.getD 0 "") = (accSan df).1 ∧
    t.pf3.rows.map (fun l => l.getD 2 "") = (manSan df).1 ∧
    t.pf4.rows.map (fun l => l.getD 0 "") = (manSan df).1 ∧
    t.pf4.rows.map (fun l => l.getD 1 "") = (manSan df).1 ∧
    t.pf5.rows.map (fun l => l.getD 0 "") = (accSan df).1 ∧
    (∀ u, t.pf6 = some u → u.rows.map (fun l => l.getD 0 "") = (accSan df).1) := by
  obtain ⟨-, -, ha, hm, hb⟩ := generate_ok h
  obtain ⟨-, ht⟩ := build_tables_ok hb
  subst ht
  have la : (accSan df).1.length = df.rows.length := by
    simp [accSan, sanitize_numeric, accCol]
  have lm : (manSan df).1.length = df.rows.length := by
    simp [manSan, sanitize_numeric, manCol]
  have hacc := updateRows_map_acc df.rows (accSan df).1 (manSan df).1 la lm
  have hman := updateRows_map_man df.rows (accSan df).1 (manSan df).1 la lm
  refine ⟨sanitize_all_valid _ _ ha, sanitize_all_valid _ _ hm,
          ?_, ?_, ?_, ?_, ?_, ?_, ?_, ?_⟩
  · simpa only [mkTables, List.map_map] using hacc
  · simpa only [mkTables, List.map_map] using hacc
  · simpa only [mkTables, List.map_map] using hacc
  · simpa only [mkTables, List.map_map] using hman
  · simpa only [mkTables, List.map_map] using hman
  · simpa only [mkTables, List.map_map] using hman
  · simpa only [mkTables, List.map_map] using hacc
  · intro u hu
    simp only [mkTables] at hu
    split at hu
    · cases hu
      simpa only [List.map_map] using hacc
    · cases hu

/-- Witness for C9: on the dataset whose row holds the raw values `"123"` and
`"42"`, the successful run's PF1 uid column is the padded series
`["0000123"]` (and the PF4 branch column the padded `["0042"]`). -/
theorem C9_padded_written_back_witness :
    tPad.pf1.rows.map (fun l => l.getD 0 "") = (accSan dfPad).1 ∧
    (accSan dfPad).1 = ["0000123"] ∧
    tPad.pf4.rows.map (fun l => l.getD 0 "") = (manSan dfPad).1 ∧
    (manSan dfPad).1 = ["0042"] := by
  have h := C9_padded_written_back pEx dfPad tPad rfl
  exact ⟨h.2.2.1, rfl, h.2.2.2.2.2.2.1, rfl⟩

end Multico

